import Mathlib

/-!
Verification development for the travel-assistant CLI (src/travel_assistant.py).

The program is shallowly embedded: JSON values delivered by the third-party
APIs are modelled by `JValue`, Python exceptions by `PyExn`, and fallible
Python code by `Except PyExn`.  Each tool wrapper is translated statement by
statement from the source; the external HTTP transport and the hosted agent
runtime are modelled as abstract outcomes fed to the translated bodies.
-/

/-- JSON values as decoded by `response.json()` / the googlemaps client.
Numbers are split into ints and floats as Python json does; a float carries
its Python repr string (only its textual form is ever used by the program,
in an f-string). -/
inductive JValue where
  | null
  | bool (b : Bool)
  | intNum (n : Int)
  | floatNum (x : String)
  | str (s : String)
  | arr (elems : List JValue)
  | obj (fields : List (String × JValue))

/-- Python exceptions that the embedded code can raise or catch.  The string
is `str(e)` (for `KeyError` that is the repr of the missing key, as in
Python). -/
inductive PyExn where
  | keyError (msg : String)
  | indexError (msg : String)
  | valueError (msg : String)
  | typeError (msg : String)
  | attributeError (msg : String)
deriving DecidableEq

/-- Python `str(e)` for an exception. -/
def exnStr : PyExn → String
  | .keyError m => m
  | .indexError m => m
  | .valueError m => m
  | .typeError m => m
  | .attributeError m => m

mutual

/-- Python `repr` of a JSON value (used for container elements inside
f-strings). -/
def pyRepr : JValue → String
  | .null => "None"
  | .bool true => "True"
  | .bool false => "False"
  | .intNum n => toString n
  | .floatNum x => x
  | .str s => "\x27" ++ s ++ "\x27"
  | .arr es => "[" ++ String.intercalate ", " (pyReprList es) ++ "]"
  | .obj fs => "\x7b" ++ String.intercalate ", " (pyReprFields fs) ++ "\x7d"

/-- `repr` of each element of a JSON array. -/
def pyReprList : List JValue → List String
  | [] => []
  | v :: vs => pyRepr v :: pyReprList vs

/-- `repr` of each key/value pair of a JSON object. -/
def pyReprFields : List (String × JValue) → List String
  | [] => []
  | (k, v) :: fs => ("\x27" ++ k ++ "\x27: " ++ pyRepr v) :: pyReprFields fs

end

/-- Python `str(x)` as used by an f-string: a string is taken verbatim,
anything else via its repr. -/
def pyToStr : JValue → String
  | .str s => s
  | v => pyRepr v

/-- Python `v.get(k, d)` on a value `v`: only dicts have a `get` attribute,
anything else raises `AttributeError`. -/
def pyGetAttrGet (v : JValue) (k : String) (d : JValue) : Except PyExn JValue :=
  match v with
  | .obj fs => .ok ((fs.lookup k).getD d)
  | _ => .error (.attributeError "object has no attribute \x27get\x27")

/-- Python `v[k]` for a string key `k`. -/
def pySubscrS (v : JValue) (k : String) : Except PyExn JValue :=
  match v with
  | .obj fs =>
    match fs.lookup k with
    | some x => .ok x
    | none => .error (.keyError ("\x27" ++ k ++ "\x27"))
  | .str _ => .error (.typeError "string indices must be integers")
  | .arr _ => .error (.typeError "list indices must be integers or slices, not str")
  | _ => .error (.typeError "object is not subscriptable")

/-- Python `v[0]`. -/
def pySubscrZero (v : JValue) : Except PyExn JValue :=
  match v with
  | .arr (x :: _) => .ok x
  | .arr [] => .error (.indexError "list index out of range")
  | .str s =>
    match s.toList with
    | c :: _ => .ok (.str (String.singleton c))
    | [] => .error (.indexError "string index out of range")
  | .obj _ => .error (.keyError "0")
  | _ => .error (.typeError "object is not subscriptable")

/-- Python `v[:8]` followed by iteration over the slice: lists and strings
are sliceable (a string slice iterates as one-character strings), anything
else raises `TypeError`. -/
def pySliceIter8 (v : JValue) : Except PyExn (List JValue) :=
  match v with
  | .arr es => .ok (es.take 8)
  | .str s => .ok ((s.toList.take 8).map fun c => .str (String.singleton c))
  | _ => .error (.typeError "object is not subscriptable")

/-- Pydantic validation of a required `str` field: accepts exactly JSON
strings (pydantic v2 does not coerce numbers to `str`); a failure is a
`ValidationError`, which subclasses `ValueError`. -/
def pyValidateStr (v : JValue) : Except PyExn String :=
  match v with
  | .str s => .ok s
  | _ => .error (.valueError "Input should be a valid string")

/-- Pydantic validation of an `Optional[str]` field. -/
def pyValidateOptStr (v : JValue) : Except PyExn (Option String) :=
  match v with
  | .str s => .ok (some s)
  | .null => .ok none
  | _ => .error (.valueError "Input should be a valid string")

/-- Pydantic validation of an `Optional[dict]` field. -/
def pyValidateOptDict (v : JValue) : Except PyExn (Option JValue) :=
  match v with
  | .obj fs => .ok (some (.obj fs))
  | .null => .ok none
  | _ => .error (.valueError "Input should be a valid dictionary")

/-- Pydantic validation of an `Optional[float]` field (ints coerce to
float; numeric-string coercion of pydantic lax mode is not modelled). -/
def pyValidateOptFloat (v : JValue) : Except PyExn (Option JValue) :=
  match v with
  | .floatNum x => .ok (some (.floatNum x))
  | .intNum n => .ok (some (.intNum n))
  | .null => .ok none
  | _ => .error (.valueError "Input should be a valid number")

/-- Collect the strings of a JSON array all of whose elements are strings. -/
def allStrs : List JValue → Option (List String)
  | [] => some []
  | .str s :: vs => (allStrs vs).map fun ss => s :: ss
  | _ => none

/-- Pydantic validation of an `Optional[List[str]]` field. -/
def pyValidateOptStrList (v : JValue) : Except PyExn (Option (List String)) :=
  match v with
  | .arr es =>
    match allStrs es with
    | some ss => .ok (some ss)
    | none => .error (.valueError "Input should be a valid string")
  | .null => .ok none
  | _ => .error (.valueError "Input should be a valid list")

/-- Pydantic validation of an `Optional[int]` field. -/
def pyValidateOptInt (v : JValue) : Except PyExn (Option Int) :=
  match v with
  | .intNum n => .ok (some n)
  | .null => .ok none
  | _ => .error (.valueError "Input should be a valid integer")

/-- Monadic map over a list in `Except`, as a Python list comprehension or
accumulating loop behaves: the first raising element aborts the whole map. -/
def exceptMap {α β : Type} (f : α → Except PyExn β) : List α → Except PyExn (List β)
  | [] => .ok []
  | x :: xs => do
    let y ← f x
    let ys ← exceptMap f xs
    .ok (y :: ys)

/-- Python `v != "200"` comparison against the string literal, negated:
true exactly when `v` is the string "200" (an int 200 is not equal to
"200" in Python). -/
def pyEqStr (v : JValue) (s : String) : Bool :=
  match v with
  | .str t => t == s
  | _ => false

-- ---------------------- Weather tool ---------------------- --

/-- The record produced by the `WeatherForecast` pydantic model
(`time`, `description`, `temp`, all strings). -/
structure WeatherForecast where
  time : String
  description : String
  temp : String
deriving DecidableEq

/-- One iteration of the list comprehension in `get_weather_forecast`:
`WeatherForecast(time=f["dt_txt"], description=f["weather"][0]["description"],
temp=f"{f['main']['temp']}°C")`, arguments evaluated left to right, then the
pydantic `str` fields validated in declaration order. -/
def weatherEntry (f : JValue) : Except PyExn WeatherForecast := do
  let tv ← pySubscrS f "dt_txt"
  let wv ← pySubscrS f "weather"
  let w0 ← pySubscrZero wv
  let dv ← pySubscrS w0 "description"
  let mv ← pySubscrS f "main"
  let tempv ← pySubscrS mv "temp"
  let t ← pyValidateStr tv
  let d ← pyValidateStr dv
  .ok ⟨t, d, pyToStr tempv ++ "°C"⟩

/-- The list comprehension over `forecasts`. -/
def weatherEntries : List JValue → Except PyExn (List WeatherForecast) :=
  exceptMap weatherEntry

/-- The body of the `try` block in `get_weather_forecast`, after the JSON
body `data` has been decoded: the `cod` check (raising `ValueError` when
`data.get("cod") != "200"`), the `[:8]` slice of `data.get('list', [])`,
and the comprehension. -/
def weatherBody (data : JValue) : Except PyExn (List WeatherForecast) := do
  let cod ← pyGetAttrGet data "cod" .null
  if pyEqStr cod "200" then do
    let lv ← pyGetAttrGet data "list" (.arr [])
    let forecasts ← pySliceIter8 lv
    weatherEntries forecasts
  else do
    let m ← pyGetAttrGet data "message" (.str "Unknown error")
    .error (.valueError ("API error: " ++ pyToStr m))

/-- Outcome of `requests.get(url)`, `response.raise_for_status()` and
`response.json()`: a transport/HTTP failure (`requests.RequestException`,
which `raise_for_status` also raises), a JSON-decode failure (requests'
`JSONDecodeError`, itself a `RequestException`), or decoded JSON data. -/
inductive WeatherHttp where
  | reqError (msg : String)
  | jsonError (msg : String)
  | ok (data : JValue)

/-- The sentinel record built in both `except` clauses of
`get_weather_forecast`:
`WeatherForecast(time="", description=f"Parsing error: {e}", temp="")`. -/
def weatherSentinel (m : String) : WeatherForecast :=
  ⟨"", "Parsing error: " ++ m, ""⟩

/-- Which exceptions the second `except` clause of `get_weather_forecast`
catches: `(KeyError, IndexError, ValueError)`.  `TypeError` and
`AttributeError` are not caught and propagate. -/
def caughtByWeatherHandler : PyExn → Bool
  | .keyError _ => true
  | .indexError _ => true
  | .valueError _ => true
  | .typeError _ => false
  | .attributeError _ => false

/-- `get_weather_forecast` as a function of the HTTP outcome `h` (the URL
construction from `city` and `WEATHER_API_KEY` does not influence the
result shape).  A `RequestException` is caught by the first `except`
clause; inside the body, `KeyError`/`IndexError`/`ValueError` are caught by
the second; both produce the single-sentinel list. -/
def get_weather_forecast (h : WeatherHttp) : Except PyExn (List WeatherForecast) :=
  match h with
  | .reqError m => .ok [weatherSentinel m]
  | .jsonError m => .ok [weatherSentinel m]
  | .ok data =>
    match weatherBody data with
    | .ok l => .ok l
    | .error e =>
      if caughtByWeatherHandler e then .ok [weatherSentinel (exnStr e)]
      else .error e

-- ---------------------- Places tool ---------------------- --

/-- The `PlaceOfInterest` pydantic model: seven fields, the last five
optional.  `opening_hours` keeps the raw validated dict, `rating` the raw
validated number. -/
structure PlaceOfInterest where
  name : String
  description : String
  business_status : Option String
  opening_hours : Option JValue
  rating : Option JValue
  types : Option (List String)
  user_ratings_total : Option Int

/-- Lookup of a key in a JSON object (`none` when the receiver is not an
object or the key is absent); used in theorem statements to speak about a
field missing from an API result. -/
def objLookup (v : JValue) (k : String) : Option JValue :=
  match v with
  | .obj fs => fs.lookup k
  | _ => none

/-- One iteration of the loop in `find_places_of_interest`:
`PlaceOfInterest(name=place.get('name', 'No name provided'), ...)` followed
by pydantic validation.  `place.get` requires `place` to be a dict
(otherwise `AttributeError`); on a dict every `get` succeeds, so the match
on the shape is hoisted out front. -/
def placeRecord (place : JValue) : Except PyExn PlaceOfInterest :=
  match place with
  | .obj fs => do
    let name ← pyValidateStr ((fs.lookup "name").getD (.str "No name provided"))
    let desc ← pyValidateStr ((fs.lookup "formatted_address").getD (.str "No address provided"))
    let bs ← pyValidateOptStr ((fs.lookup "business_status").getD (.str "No business status provided"))
    let oh ← pyValidateOptDict ((fs.lookup "opening_hours").getD .null)
    let rt ← pyValidateOptFloat ((fs.lookup "rating").getD .null)
    let ty ← pyValidateOptStrList ((fs.lookup "types").getD .null)
    let urt ← pyValidateOptInt ((fs.lookup "user_ratings_total").getD .null)
    .ok ⟨name, desc, bs, oh, rt, ty, urt⟩
  | _ => .error (.attributeError "object has no attribute \x27get\x27")

/-- The loop over `response.get('results', [])`. -/
def placeRecords : List JValue → Except PyExn (List PlaceOfInterest) :=
  exceptMap placeRecord

/-- Python iteration over a value (`for place in ...`): lists yield their
elements, strings their characters, dicts their keys; anything else raises
`TypeError`. -/
def pyIterate (v : JValue) : Except PyExn (List JValue) :=
  match v with
  | .arr es => .ok es
  | .str s => .ok (s.toList.map fun c => .str (String.singleton c))
  | .obj fs => .ok (fs.map fun kv => .str kv.1)
  | _ => .error (.typeError "object is not iterable")

/-- `response.get('results', [])` followed by iteration. -/
def placesResults (resp : JValue) : Except PyExn (List JValue) := do
  let rv ← pyGetAttrGet resp "results" (.arr [])
  pyIterate rv

/-- The body of the `try` block of `find_places_of_interest` after
`gmaps.places(query=query)` returned the decoded response `resp`. -/
def placesBody (resp : JValue) : Except PyExn (List PlaceOfInterest) := do
  let rs ← placesResults resp
  placeRecords rs

/-- Outcome of the upstream call `gmaps.places(query=query)`:
a `googlemaps.exceptions.ApiError`, any other `Exception` (timeouts,
transport errors, ...), or a decoded response.  (A malformed-key failure of
the `googlemaps.Client` constructor, which sits before the `try` block,
means the upstream call never happens and is outside this type.) -/
inductive PlacesOutcome where
  | apiError (msg : String)
  | otherError (msg : String)
  | ok (resp : JValue)

/-- `find_places_of_interest` as a function of whether
`GOOGLE_PLACES_API_KEY` is set (the guard before the `try`) and of the
upstream call outcome.  Both `except` clauses return `[]`; every exception
raised inside the `try` block (including pydantic `ValidationError` and
`AttributeError`/`TypeError` on ill-shaped results) is caught by the
catch-all `except Exception`. -/
def find_places_of_interest (keyPresent : Bool) (o : PlacesOutcome) :
    Except PyExn (List PlaceOfInterest) :=
  if keyPresent = false then
    .error (.valueError "GOOGLE_PLACES_API_KEY environment variable not set.")
  else
    match o with
    | .apiError _ => .ok []
    | .otherError _ => .ok []
    | .ok resp =>
      match placesBody resp with
      | .ok l => .ok l
      | .error _ => .ok []

-- ---------------------- Guardrails ---------------------- --

/-- The `InputScanOutput` pydantic model (output type of the input-scanner
agent). -/
structure InputScanOutput where
  is_off_topic : Bool
  reason : String

/-- The `OutputScanResult` pydantic model (output type of the tone-checker
agent). -/
structure OutputScanResult where
  contains_profanity : Bool
  explanation : String

/-- The framework's `GuardrailFunctionOutput`, carrying the classifier
result and the tripwire flag. -/
structure GuardrailFunctionOutput (A : Type) where
  output_info : A
  tripwire_triggered : Bool

/-- `safe_input_guardrail` as a function of the classifier result
(`result.final_output` of the inner `Runner.run`, which is external):
`GuardrailFunctionOutput(output_info=result.final_output,
tripwire_triggered=result.final_output.is_off_topic)`. -/
def safe_input_guardrail (finalOutput : InputScanOutput) :
    GuardrailFunctionOutput InputScanOutput :=
  { output_info := finalOutput, tripwire_triggered := finalOutput.is_off_topic }

/-- `output_safety_guardrail` as a function of the classifier result:
the tripwire is `result.final_output.contains_profanity`. -/
def output_safety_guardrail (finalOutput : OutputScanResult) :
    GuardrailFunctionOutput OutputScanResult :=
  { output_info := finalOutput, tripwire_triggered := finalOutput.contains_profanity }

-- ---------------------- Startup (module level) ---------------------- --

/-- Python truth test `not value` on an `Optional[str]`: true for `None`
and for the empty string. -/
def envFalsy : Option String → Bool
  | none => true
  | some s => s == ""

/-- The `required_env` loop (lines 47-56): the dict preserves insertion
order, so the keys are checked in the order OPENAI_API_KEY,
GOOGLE_PLACES_API_KEY, WEATHER_API_KEY, and the first falsy value raises
`RuntimeError(f"Missing environment variable: {key}")`. -/
def startupCheck (o g w : Option String) : Except String Unit :=
  if envFalsy o then .error ("Missing environment variable: " ++ "OPENAI_API_KEY")
  else if envFalsy g then .error ("Missing environment variable: " ++ "GOOGLE_PLACES_API_KEY")
  else if envFalsy w then .error ("Missing environment variable: " ++ "WEATHER_API_KEY")
  else .ok ()

/-- Side effects of the module prelude, in source order. -/
inductive StartupEffect where
  | configureLogging
  | loadDotenvFile
  | readEnv (key : String)
  | setTracingKey
  | networkCall
deriving DecidableEq

/-- The module prelude up to and including the `required_env` check, as the
ordered list of effects it performs together with the check outcome.
`logging.basicConfig`, `dotenv.load_dotenv`, the three `os.getenv` reads
and `set_tracing_export_api_key` (which only stores the key) perform no
network call. -/
def moduleStartup (o g w : Option String) :
    List StartupEffect × Except String Unit :=
  ([.configureLogging, .loadDotenvFile,
    .readEnv "OPENAI_API_KEY", .readEnv "GOOGLE_PLACES_API_KEY",
    .readEnv "WEATHER_API_KEY", .setTracingKey],
   startupCheck o g w)

-- ---------------------- CLI main ---------------------- --

/-- Python whitespace characters as stripped by `str.strip()` (the ASCII
whitespace set; the further Unicode whitespace code points that Python
also strips are modelled the same way and omitted for brevity). -/
def isPySpace (c : Char) : Bool :=
  c = ' ' || c = '\t' || c = '\n' || c = '\r' || c = '\x0b' || c = '\x0c'

/-- Python `s.strip()`: drop leading and trailing whitespace. -/
def pyStrip (s : String) : String :=
  String.mk (((s.toList.dropWhile isPySpace).reverse.dropWhile isPySpace).reverse)

/-- Outcome of `Runner.run_sync(agent, prompt)` observed by `__main__`:
a final output, one of the two guardrail tripwire exceptions, or any other
exception. -/
inductive RunOutcome where
  | success (finalOutput : String)
  | inputTripwire
  | outputTripwire
  | otherException (msg : String)

/-- Everything `__main__` does that is observable: lines printed to stdout,
the process exit code, whether `Runner.run_sync` was invoked and with which
prompt, and whether a stack trace was logged (`logger.exception`). -/
structure MainResult where
  printed : List String
  exitCode : Nat
  agentInvoked : Bool
  promptUsed : Option String
  loggedTraceback : Bool
deriving DecidableEq

/-- The prompt f-string of `__main__` with the (stripped) city
interpolated. -/
def travelPrompt (city : String) : String :=
  "I\x27m planning a trip within the next 24 hours to " ++ city ++ ". " ++
  "Provide a detailed weather forecast for the next 24 hours, suggest suitable places of interest " ++
  "based on the weather conditions, include the latest updates from the web about local events, " ++
  "travel advisories, or relevant news. Also, provide practical advice for traveling there."

/-- `__main__` (lines 220-247) as a function of the raw `input()` string
and of the outcome of the single `Runner.run_sync` call:
`city = input(...).strip()`; empty city prints an error and exits 1 before
any agent work; otherwise the agent runs on the interpolated prompt and the
try/except ladder maps its outcome to one printed line each, logging a
traceback only in the catch-all branch. -/
def mainRun (rawInput : String) (outcome : RunOutcome) : MainResult :=
  let city := pyStrip rawInput
  if city = "" then
    { printed := ["City name cannot be empty."], exitCode := 1,
      agentInvoked := false, promptUsed := none, loggedTraceback := false }
  else
    match outcome with
    | .success out =>
      { printed := [out], exitCode := 0, agentInvoked := true,
        promptUsed := some (travelPrompt city), loggedTraceback := false }
    | .inputTripwire =>
      { printed := ["Please give me the destination city that you want to travel to within the next 24 hours."],
        exitCode := 0, agentInvoked := true,
        promptUsed := some (travelPrompt city), loggedTraceback := false }
    | .outputTripwire =>
      { printed := ["Please try rephrasing your request."],
        exitCode := 0, agentInvoked := true,
        promptUsed := some (travelPrompt city), loggedTraceback := false }
    | .otherException _ =>
      { printed := ["An unexpected error occurred. Please try again later."],
        exitCode := 0, agentInvoked := true,
        promptUsed := some (travelPrompt city), loggedTraceback := true }

-- ---------------------- Helper lemmas ---------------------- --

theorem exceptMap_ok_length {α β : Type} (f : α → Except PyExn β) :
    ∀ (xs : List α) (ys : List β), exceptMap f xs = .ok ys → ys.length = xs.length := by
  intro xs
  induction xs with
  | nil =>
    intro ys h
    simp [exceptMap] at h
    simp [h]
  | cons x xs ih =>
    intro ys h
    simp only [exceptMap, Bind.bind, Except.bind] at h
    cases hx : f x with
    | error e => rw [hx] at h; exact absurd h (by simp)
    | ok y =>
      rw [hx] at h
      cases hr : exceptMap f xs with
      | error e => rw [hr] at h; exact absurd h (by simp)
      | ok ys0 =>
        rw [hr] at h
        simp at h
        subst h
        simp [ih ys0 hr]

theorem exceptMap_ok_mem {α β : Type} (f : α → Except PyExn β) :
    ∀ (xs : List α) (ys : List β), exceptMap f xs = .ok ys →
      ∀ y ∈ ys, ∃ x ∈ xs, f x = .ok y := by
  intro xs
  induction xs with
  | nil =>
    intro ys h y hy
    simp [exceptMap] at h
    subst h
    simp at hy
  | cons x xs ih =>
    intro ys h y hy
    simp only [exceptMap, Bind.bind, Except.bind] at h
    cases hx : f x with
    | error e => rw [hx] at h; exact absurd h (by simp)
    | ok y0 =>
      rw [hx] at h
      cases hr : exceptMap f xs with
      | error e => rw [hr] at h; exact absurd h (by simp)
      | ok ys0 =>
        rw [hr] at h
        simp at h
        subst h
        rcases List.mem_cons.1 hy with h0 | h0
        · exact ⟨x, List.mem_cons_self x xs, by rw [hx, h0]⟩
        · rcases ih ys0 hr y h0 with ⟨x1, hx1, hfx1⟩
          exact ⟨x1, List.mem_cons_of_mem x hx1, hfx1⟩

theorem exceptMap_ok_get {α β : Type} (f : α → Except PyExn β) :
    ∀ (xs : List α) (ys : List β), exceptMap f xs = .ok ys →
      ∀ i (hx : i < xs.length) (hy : i < ys.length),
        f (xs.get ⟨i, hx⟩) = .ok (ys.get ⟨i, hy⟩) := by
  intro xs
  induction xs with
  | nil =>
    intro ys h i hx hy
    simp at hx
  | cons x xs ih =>
    intro ys h i hx hy
    simp only [exceptMap, Bind.bind, Except.bind] at h
    cases hfx : f x with
    | error e => rw [hfx] at h; exact absurd h (by simp)
    | ok y0 =>
      rw [hfx] at h
      cases hr : exceptMap f xs with
      | error e => rw [hr] at h; exact absurd h (by simp)
      | ok ys0 =>
        rw [hr] at h
        simp at h
        subst h
        cases i with
        | zero => simpa using hfx
        | succ j =>
          simp only [List.get_cons_succ]
          exact ih ys0 hr j (Nat.lt_of_succ_lt_succ hx) (Nat.lt_of_succ_lt_succ hy)

theorem string_append_degC_ne_empty (s : String) : s ++ "°C" ≠ "" := by
  intro h
  have hl : (s ++ "°C").length = 0 := by rw [h]; rfl
  rw [String.length_append] at hl
  have h2 : ("°C" : String).length = 2 := rfl
  omega

theorem pySliceIter8_ok_length (v : JValue) (fs : List JValue)
    (h : pySliceIter8 v = .ok fs) : fs.length ≤ 8 := by
  cases v with
  | arr es =>
    simp [pySliceIter8] at h
    subst h
    simp
  | str s =>
    simp [pySliceIter8] at h
    subst h
    simp
  | null => simp [pySliceIter8] at h
  | bool b => simp [pySliceIter8] at h
  | intNum n => simp [pySliceIter8] at h
  | floatNum x => simp [pySliceIter8] at h
  | obj kvs => simp [pySliceIter8] at h

theorem weatherEntry_ok_temp (f : JValue) (e : WeatherForecast)
    (h : weatherEntry f = .ok e) : e.temp ≠ "" := by
  simp only [weatherEntry, Bind.bind, Except.bind] at h
  repeat' split at h
  any_goals simp at h
  subst h
  exact string_append_degC_ne_empty _

theorem weatherBody_ok_shape (data : JValue) (l : List WeatherForecast)
    (h : weatherBody data = .ok l) : l.length ≤ 8 ∧ ∀ e ∈ l, e.temp ≠ "" := by
  simp only [weatherBody, Bind.bind, Except.bind] at h
  split at h
  next e heq => simp at h
  next cod heq =>
    split at h
    next hcod =>
      split at h
      next e2 heq2 => simp at h
      next lv heq2 =>
        split at h
        next e3 heq3 => simp at h
        next fc heq3 =>
          constructor
          · rw [exceptMap_ok_length weatherEntry fc l h]
            exact pySliceIter8_ok_length lv fc heq3
          · intro e he
            rcases exceptMap_ok_mem weatherEntry fc l h e he with ⟨f, _, hf⟩
            exact weatherEntry_ok_temp f e hf
    next hcod =>
      split at h
      next e2 heq2 => simp at h
      next m heq2 => simp at h

-- ---------------------- Claim theorems: weather ---------------------- --

/-- C1 (amended): whenever `get_weather_forecast` returns a list (it can
propagate a `TypeError`/`AttributeError` on responses of structurally
unexpected JSON types), that list either contains at most 8 entries, each
with a non-empty `temp` field (`time` and `description` are copied verbatim
from the API response and may be empty), or contains exactly one sentinel
error record. -/
theorem weather_c1_amended (h : WeatherHttp) (l : List WeatherForecast)
    (hok : get_weather_forecast h = .ok l) :
    (l.length ≤ 8 ∧ ∀ e ∈ l, e.temp ≠ "") ∨ (∃ m, l = [weatherSentinel m]) := by
  cases h with
  | reqError m =>
    right
    simp only [get_weather_forecast] at hok
    exact ⟨m, by simp at hok; rw [hok]⟩
  | jsonError m =>
    right
    simp only [get_weather_forecast] at hok
    exact ⟨m, by simp at hok; rw [hok]⟩
  | ok data =>
    simp only [get_weather_forecast] at hok
    split at hok
    next l2 heq =>
      left
      simp at hok
      rw [hok.symm]
      exact weatherBody_ok_shape data l2 heq
    next e heq =>
      split at hok
      · right
        simp at hok
        exact ⟨exnStr e, hok.symm⟩
      · simp at hok

/-- C1 witness: the amended statement instantiated at a concrete transport
failure. -/
theorem weather_c1_amended_witness :
    ([weatherSentinel "boom"].length ≤ 8 ∧ ∀ e ∈ [weatherSentinel "boom"], e.temp ≠ "") ∨
      (∃ m, [weatherSentinel "boom"] = [weatherSentinel m]) :=
  weather_c1_amended (.reqError "boom") [weatherSentinel "boom"] rfl

/-- C1 counterexample: a successful response whose first 3-hour entry has
`dt_txt = ""` makes the wrapper return one record whose `time` field is
empty, so the returned list neither consists of records with all three
string fields non-empty nor is the single sentinel error record (whose
`temp` is empty and whose description starts with "Parsing error: "). -/
theorem weather_c1_cex :
    get_weather_forecast (.ok (.obj [("cod", .str "200"),
        ("list", .arr [.obj [("dt_txt", .str ""),
          ("weather", .arr [.obj [("description", .str "sunny")]]),
          ("main", .obj [("temp", .floatNum "5.0")])]])]))
      = .ok [⟨"", "sunny", "5.0°C"⟩] ∧
    ¬ ((∀ e ∈ [(⟨"", "sunny", "5.0°C"⟩ : WeatherForecast)],
          e.time ≠ "" ∧ e.description ≠ "" ∧ e.temp ≠ "") ∨
        (∃ m, [(⟨"", "sunny", "5.0°C"⟩ : WeatherForecast)] = [weatherSentinel m])) := by
  constructor
  · rfl
  · intro hcl
    rcases hcl with hall | ⟨m, hm⟩
    · exact (hall ⟨"", "sunny", "5.0°C"⟩ (List.mem_singleton.2 rfl)).1 rfl
    · simp [weatherSentinel, WeatherForecast.mk.injEq] at hm

/-- C9: on any transport error (including a JSON-decode failure of the
response body), and on any JSON-object response whose `cod` field is not
exactly the string "200" (a numeric 200 included, since Python
`200 != "200"`), `get_weather_forecast` returns exactly one sentinel record
with empty `time` and `temp` and a description beginning
"Parsing error: ". -/
theorem weather_c9 :
    (∀ m, get_weather_forecast (.reqError m) =
      .ok [⟨"", "Parsing error: " ++ m, ""⟩]) ∧
    (∀ m, get_weather_forecast (.jsonError m) =
      .ok [⟨"", "Parsing error: " ++ m, ""⟩]) ∧
    (∀ fs, pyEqStr ((fs.lookup "cod").getD .null) "200" = false →
      get_weather_forecast (.ok (.obj fs)) =
        .ok [⟨"", "Parsing error: " ++ ("API error: " ++
          pyToStr ((fs.lookup "message").getD (.str "Unknown error"))), ""⟩]) := by
  refine ⟨fun m => rfl, fun m => rfl, fun fs hcod => ?_⟩
  simp only [get_weather_forecast, weatherBody, Bind.bind, Except.bind,
    pyGetAttrGet, hcod, if_false, Bool.false_eq_true, caughtByWeatherHandler,
    exnStr, weatherSentinel, if_true]

/-- C9 witness: a response with a numeric `cod` of 200 and an error message
yields the sentinel record. -/
theorem weather_c9_witness :
    get_weather_forecast (.ok (.obj [("cod", JValue.intNum 200),
        ("message", JValue.str "city not found")])) =
      .ok [⟨"", "Parsing error: API error: city not found", ""⟩] :=
  weather_c9.2.2 [("cod", JValue.intNum 200), ("message", JValue.str "city not found")] rfl

-- ---------------------- Claim theorems: places ---------------------- --

theorem placeRecord_ok_fields (p : JValue) (r : PlaceOfInterest)
    (h : placeRecord p = .ok r) :
    (objLookup p "name" = none → r.name = "No name provided") ∧
    (objLookup p "formatted_address" = none → r.description = "No address provided") ∧
    (objLookup p "business_status" = none →
      r.business_status = some "No business status provided") ∧
    (objLookup p "opening_hours" = none → r.opening_hours = none) ∧
    (objLookup p "rating" = none → r.rating = none) ∧
    (objLookup p "types" = none → r.types = none) ∧
    (objLookup p "user_ratings_total" = none → r.user_ratings_total = none) := by
  cases p with
  | null => simp [placeRecord] at h
  | bool b => simp [placeRecord] at h
  | intNum n => simp [placeRecord] at h
  | floatNum x => simp [placeRecord] at h
  | str s => simp [placeRecord] at h
  | arr es => simp [placeRecord] at h
  | obj fs =>
    simp only [placeRecord, Bind.bind, Except.bind] at h
    split at h
    next e heq => simp at h
    next v1 heq1 =>
    split at h
    next e heq => simp at h
    next v2 heq2 =>
    split at h
    next e heq => simp at h
    next v3 heq3 =>
    split at h
    next e heq => simp at h
    next v4 heq4 =>
    split at h
    next e heq => simp at h
    next v5 heq5 =>
    split at h
    next e heq => simp at h
    next v6 heq6 =>
    split at h
    next e heq => simp at h
    next v7 heq7 =>
    simp at h
    subst h
    refine ⟨?_, ?_, ?_, ?_, ?_, ?_, ?_⟩
    · intro hnone
      simp only [objLookup] at hnone
      rw [hnone] at heq1
      simp only [Option.getD_none, pyValidateStr, Except.ok.injEq] at heq1
      exact heq1.symm
    · intro hnone
      simp only [objLookup] at hnone
      rw [hnone] at heq2
      simp only [Option.getD_none, pyValidateStr, Except.ok.injEq] at heq2
      exact heq2.symm
    · intro hnone
      simp only [objLookup] at hnone
      rw [hnone] at heq3
      simp only [Option.getD_none, pyValidateOptStr, Except.ok.injEq] at heq3
      exact heq3.symm
    · intro hnone
      simp only [objLookup] at hnone
      rw [hnone] at heq4
      simp only [Option.getD_none, pyValidateOptDict, Except.ok.injEq] at heq4
      exact heq4.symm
    · intro hnone
      simp only [objLookup] at hnone
      rw [hnone] at heq5
      simp only [Option.getD_none, pyValidateOptFloat, Except.ok.injEq] at heq5
      exact heq5.symm
    · intro hnone
      simp only [objLookup] at hnone
      rw [hnone] at heq6
      simp only [Option.getD_none, pyValidateOptStrList, Except.ok.injEq] at heq6
      exact heq6.symm
    · intro hnone
      simp only [objLookup] at hnone
      rw [hnone] at heq7
      simp only [Option.getD_none, pyValidateOptInt, Except.ok.injEq] at heq7
      exact heq7.symm

/-- C2: whenever the upstream `gmaps.places` call raises — a
`googlemaps.exceptions.ApiError` or any other `Exception` — the wrapper
returns the empty list; moreover (the "never raises" part) for every
upstream outcome the wrapper returns normally, since the `try` block is
covered by a catch-all `except Exception` clause. -/
theorem places_c2 :
    (∀ m, find_places_of_interest true (.apiError m) = .ok []) ∧
    (∀ m, find_places_of_interest true (.otherError m) = .ok []) ∧
    (∀ o, ∃ l, find_places_of_interest true o = .ok l) := by
  refine ⟨fun m => rfl, fun m => rfl, fun o => ?_⟩
  cases o with
  | apiError m => exact ⟨[], rfl⟩
  | otherError m => exact ⟨[], rfl⟩
  | ok resp =>
    cases hb : placesBody resp with
    | ok l => exact ⟨l, by simp [find_places_of_interest, hb]⟩
    | error e => exact ⟨[], by simp [find_places_of_interest, hb]⟩

/-- C6 (amended): for every successful places-API response each of whose
results passes the `PlaceOfInterest` field validation, the wrapper returns
exactly one record per API result, preserving order and count; if any
single result fails validation (or is not a JSON object), the wrapper
instead returns the empty list for the whole response. -/
theorem places_c6_amended (resp : JValue) (rs : List JValue)
    (l : List PlaceOfInterest)
    (h1 : placesResults resp = .ok rs) (h2 : placeRecords rs = .ok l) :
    find_places_of_interest true (.ok resp) = .ok l ∧
    l.length = rs.length ∧
    ∀ i (hx : i < rs.length) (hy : i < l.length),
      placeRecord (rs.get ⟨i, hx⟩) = .ok (l.get ⟨i, hy⟩) := by
  have hb : placesBody resp = .ok l := by
    unfold placesBody
    rw [h1]
    exact h2
  exact ⟨by simp [find_places_of_interest, hb],
    exceptMap_ok_length placeRecord rs l h2,
    fun i hx hy => exceptMap_ok_get placeRecord rs l h2 i hx hy⟩

/-- C6 witness: a one-result response (with some optional fields absent)
maps to exactly one record, count preserved. -/
theorem places_c6_amended_witness :
    find_places_of_interest true (.ok (.obj [("results", .arr [.obj
        [("name", .str "Museo"), ("formatted_address", .str "Via Roma 1"),
         ("rating", .floatNum "4.5")]])]))
      = .ok [⟨"Museo", "Via Roma 1", some "No business status provided",
          none, some (.floatNum "4.5"), none, none⟩] ∧
    ([(⟨"Museo", "Via Roma 1", some "No business status provided",
        none, some (.floatNum "4.5"), none, none⟩ : PlaceOfInterest)]).length
      = [JValue.obj [("name", JValue.str "Museo"),
          ("formatted_address", JValue.str "Via Roma 1"),
          ("rating", JValue.floatNum "4.5")]].length := by
  have h := places_c6_amended
    (.obj [("results", .arr [.obj [("name", .str "Museo"),
      ("formatted_address", .str "Via Roma 1"), ("rating", .floatNum "4.5")]])])
    [.obj [("name", .str "Museo"), ("formatted_address", .str "Via Roma 1"),
      ("rating", .floatNum "4.5")]]
    [⟨"Museo", "Via Roma 1", some "No business status provided",
      none, some (.floatNum "4.5"), none, none⟩] rfl rfl
  exact ⟨h.1, h.2.1⟩

/-- C6 counterexample: a successful response containing one result that is
not a JSON object makes the wrapper return the empty list (the in-loop
`AttributeError` is swallowed by the catch-all), so the returned list does
not preserve the count of the API results. -/
theorem places_c6_cex :
    find_places_of_interest true (.ok (.obj [("results", .arr [.intNum 3])]))
      = .ok [] ∧
    ([] : List PlaceOfInterest).length ≠ [JValue.intNum 3].length :=
  ⟨rfl, by decide⟩

/-- C10: for every record returned by `find_places_of_interest`, taken
together with the API result at the same position in the response it was
built from, a missing `name`, `formatted_address` or `business_status` key
in that result is replaced by the fixed placeholder string, while missing
`opening_hours`, `rating`, `types` and `user_ratings_total` are left as
`None`. -/
theorem places_c10 (resp : JValue) (rs : List JValue)
    (l : List PlaceOfInterest)
    (hrs : placesResults resp = .ok rs)
    (hl : find_places_of_interest true (.ok resp) = .ok l)
    (i : Nat) (hx : i < rs.length) (hy : i < l.length) :
    placeRecord (rs.get ⟨i, hx⟩) = .ok (l.get ⟨i, hy⟩) ∧
    (objLookup (rs.get ⟨i, hx⟩) "name" = none →
      (l.get ⟨i, hy⟩).name = "No name provided") ∧
    (objLookup (rs.get ⟨i, hx⟩) "formatted_address" = none →
      (l.get ⟨i, hy⟩).description = "No address provided") ∧
    (objLookup (rs.get ⟨i, hx⟩) "business_status" = none →
      (l.get ⟨i, hy⟩).business_status = some "No business status provided") ∧
    (objLookup (rs.get ⟨i, hx⟩) "opening_hours" = none →
      (l.get ⟨i, hy⟩).opening_hours = none) ∧
    (objLookup (rs.get ⟨i, hx⟩) "rating" = none →
      (l.get ⟨i, hy⟩).rating = none) ∧
    (objLookup (rs.get ⟨i, hx⟩) "types" = none →
      (l.get ⟨i, hy⟩).types = none) ∧
    (objLookup (rs.get ⟨i, hx⟩) "user_ratings_total" = none →
      (l.get ⟨i, hy⟩).user_ratings_total = none) := by
  cases hb : placesBody resp with
  | error e =>
    simp only [find_places_of_interest, hb] at hl
    simp at hl
    subst hl
    simp at hy
  | ok l2 =>
    simp only [find_places_of_interest, hb] at hl
    simp at hl
    subst hl
    have hrec : placeRecords rs = .ok l2 := by
      unfold placesBody at hb
      rw [hrs] at hb
      exact hb
    have hp := exceptMap_ok_get placeRecord rs l2 hrec i hx hy
    exact ⟨hp, placeRecord_ok_fields (rs.get ⟨i, hx⟩) (l2.get ⟨i, hy⟩) hp⟩

/-- C10 witness: a response whose single result has no keys at all maps to
the record with the three placeholder strings and four `None`s, every
missing-key antecedent holding at this input. -/
theorem places_c10_witness :
    placeRecord (JValue.obj []) = .ok ⟨"No name provided", "No address provided",
      some "No business status provided", none, none, none, none⟩ ∧
    (objLookup (JValue.obj []) "name" = none →
      ("No name provided" : String) = "No name provided") ∧
    (objLookup (JValue.obj []) "formatted_address" = none →
      ("No address provided" : String) = "No address provided") ∧
    (objLookup (JValue.obj []) "business_status" = none →
      (some "No business status provided" : Option String) =
        some "No business status provided") ∧
    (objLookup (JValue.obj []) "opening_hours" = none →
      (none : Option JValue) = none) ∧
    (objLookup (JValue.obj []) "rating" = none →
      (none : Option JValue) = none) ∧
    (objLookup (JValue.obj []) "types" = none →
      (none : Option (List String)) = none) ∧
    (objLookup (JValue.obj []) "user_ratings_total" = none →
      (none : Option Int) = none) :=
  places_c10 (.obj [("results", .arr [.obj []])]) [.obj []]
    [⟨"No name provided", "No address provided",
      some "No business status provided", none, none, none, none⟩]
    rfl rfl 0 (by decide) (by decide)

-- ---------------------- Claim theorems: guardrails ---------------------- --

/-- C7: the input guardrail trips exactly when the input-topic classifier
result has `is_off_topic = true`, and the output guardrail trips exactly
when the output-tone classifier result has `contains_profanity = true`. -/
theorem guardrails_c7 :
    (∀ i : InputScanOutput,
      (safe_input_guardrail i).tripwire_triggered = true ↔ i.is_off_topic = true) ∧
    (∀ o : OutputScanResult,
      (output_safety_guardrail o).tripwire_triggered = true ↔
        o.contains_profanity = true) :=
  ⟨fun _ => Iff.rfl, fun _ => Iff.rfl⟩

-- ---------------------- Claim theorems: startup ---------------------- --

/-- C4: if any of the three required environment variables is absent or
empty, the module prelude fails with a `RuntimeError` naming a missing
variable, and no network call occurs among the effects performed up to
that point. -/
theorem startup_c4 (o g w : Option String)
    (hmiss : envFalsy o = true ∨ envFalsy g = true ∨ envFalsy w = true) :
    (∃ k, (moduleStartup o g w).2 = .error ("Missing environment variable: " ++ k)) ∧
    StartupEffect.networkCall ∉ (moduleStartup o g w).1 := by
  constructor
  · simp only [moduleStartup, startupCheck]
    by_cases ho : envFalsy o = true
    · exact ⟨"OPENAI_API_KEY", by rw [if_pos ho]⟩
    · rw [if_neg ho]
      by_cases hg : envFalsy g = true
      · exact ⟨"GOOGLE_PLACES_API_KEY", by rw [if_pos hg]⟩
      · rw [if_neg hg]
        by_cases hw : envFalsy w = true
        · exact ⟨"WEATHER_API_KEY", by rw [if_pos hw]⟩
        · rcases hmiss with h | h | h
          · exact absurd h ho
          · exact absurd h hg
          · exact absurd h hw
  · simp [moduleStartup]

/-- C4 witness: with the LLM credential unset and the other two set, the
startup check errors and the effect trace holds no network call. -/
theorem startup_c4_witness :
    (∃ k, (moduleStartup none (some "g") (some "w")).2 =
      .error ("Missing environment variable: " ++ k)) ∧
    StartupEffect.networkCall ∉ (moduleStartup none (some "g") (some "w")).1 :=
  startup_c4 none (some "g") (some "w") (Or.inl rfl)

-- ---------------------- Claim theorems: CLI main ---------------------- --

/-- C5: if the city read from the CLI prompt is empty after stripping, the
program prints the error message and exits with status 1 without invoking
the agent, whatever the agent run would have produced. -/
theorem main_c5 (raw : String) (o : RunOutcome) (hempty : pyStrip raw = "") :
    mainRun raw o =
      { printed := ["City name cannot be empty."], exitCode := 1,
        agentInvoked := false, promptUsed := none, loggedTraceback := false } := by
  simp [mainRun, hempty]

/-- C5 witness: the literally empty input exits with status 1 and no agent
invocation. -/
theorem main_c5_witness :
    mainRun "" (.success "itinerary") =
      { printed := ["City name cannot be empty."], exitCode := 1,
        agentInvoked := false, promptUsed := none, loggedTraceback := false } :=
  main_c5 "" (.success "itinerary") rfl

/-- C3: with a non-empty city, the three failure signals of the agent run
map to exactly the three user-visible outcomes: the input-guardrail
tripwire prints the fixed polite message and nothing else happens, the
output-guardrail tripwire prints the fixed rephrase message, and any other
exception prints the generic failure message with a stack trace logged
(only in that branch). -/
theorem main_c3 (raw : String) (hcity : pyStrip raw ≠ "") :
    mainRun raw .inputTripwire =
      { printed := ["Please give me the destination city that you want to travel to within the next 24 hours."],
        exitCode := 0, agentInvoked := true,
        promptUsed := some (travelPrompt (pyStrip raw)), loggedTraceback := false } ∧
    mainRun raw .outputTripwire =
      { printed := ["Please try rephrasing your request."],
        exitCode := 0, agentInvoked := true,
        promptUsed := some (travelPrompt (pyStrip raw)), loggedTraceback := false } ∧
    ∀ m, mainRun raw (.otherException m) =
      { printed := ["An unexpected error occurred. Please try again later."],
        exitCode := 0, agentInvoked := true,
        promptUsed := some (travelPrompt (pyStrip raw)), loggedTraceback := true } := by
  refine ⟨?_, ?_, fun m => ?_⟩
  all_goals simp [mainRun, hcity]

/-- C3 witness: the three outcomes at the concrete input "Paris". -/
theorem main_c3_witness :
    mainRun "Paris" .inputTripwire =
      { printed := ["Please give me the destination city that you want to travel to within the next 24 hours."],
        exitCode := 0, agentInvoked := true,
        promptUsed := some (travelPrompt (pyStrip "Paris")), loggedTraceback := false } ∧
    mainRun "Paris" .outputTripwire =
      { printed := ["Please try rephrasing your request."],
        exitCode := 0, agentInvoked := true,
        promptUsed := some (travelPrompt (pyStrip "Paris")), loggedTraceback := false } ∧
    ∀ m, mainRun "Paris" (.otherException m) =
      { printed := ["An unexpected error occurred. Please try again later."],
        exitCode := 0, agentInvoked := true,
        promptUsed := some (travelPrompt (pyStrip "Paris")), loggedTraceback := true } :=
  main_c3 "Paris" (by decide)

/-- C8: the CLI input is stripped before the emptiness check, so an input
of only whitespace characters also exits with status 1 without invoking
the agent, and for any input whose stripped form is non-empty it is the
stripped city that is interpolated into the agent prompt. -/
theorem main_c8 :
    (∀ (raw : String) (o : RunOutcome),
      (∀ c ∈ raw.toList, isPySpace c = true) →
      mainRun raw o =
        { printed := ["City name cannot be empty."], exitCode := 1,
          agentInvoked := false, promptUsed := none, loggedTraceback := false }) ∧
    (∀ (raw : String) (o : RunOutcome), pyStrip raw ≠ "" →
      (mainRun raw o).promptUsed = some (travelPrompt (pyStrip raw))) := by
  constructor
  · intro raw o hws
    have hstrip : pyStrip raw = "" := by
      have h1 : raw.data.dropWhile isPySpace = [] :=
        List.dropWhile_eq_nil_iff.2 fun c hc => hws c hc
      simp only [pyStrip, String.toList, h1, List.reverse_nil, List.dropWhile_nil]
    exact main_c5 raw o hstrip
  · intro raw o hcity
    cases o with
    | success out => simp [mainRun, hcity]
    | inputTripwire => simp [mainRun, hcity]
    | outputTripwire => simp [mainRun, hcity]
    | otherException m => simp [mainRun, hcity]

/-- C8 witness: a whitespace-only input exits like the empty one, and a
padded input is stripped before interpolation into the prompt. -/
theorem main_c8_witness :
    mainRun "  \t " (.success "x") =
      { printed := ["City name cannot be empty."], exitCode := 1,
        agentInvoked := false, promptUsed := none, loggedTraceback := false } ∧
    (mainRun " Paris " (.success "x")).promptUsed =
      some (travelPrompt (pyStrip " Paris ")) :=
  ⟨main_c8.1 "  \t " (.success "x") (by decide),
   main_c8.2 " Paris " (.success "x") (by decide)⟩
